import Mathlib

/-!
Shallow embedding of the svedprint-go edge-gateway trust boundary:
the JWKS key store (`refreshKeys`), the JWT token validator
(`ValidateToken` built on golang-jwt/jwt v5 `ParseWithClaims`), the
realm-role predicate (`HasRealmRole`), the service configuration
loader (`config.Load` / `validate`), and the (spec-described) log
pipeline enqueue.

Modelling conventions:
* Go strings are modelled as Lean `String`s viewed as their character
  sequences (`String.data`); the URLs and identifiers involved are
  ASCII, where Go's byte length coincides with the character count.
* Machine integers are `Nat`/`Int`; `big.Int.Int64` truncation is
  modelled explicitly modulo 2^64.
* The HTTP fetch performed by `refreshKeys` is abstracted as a
  `FetchResponse` value describing what the network returned
  (request/transport error, or a status code plus a body that either
  fails JSON decoding or yields the list of JWKs).
* Time is `Nat` seconds since epoch.
-/

/-- Value of a base64url alphabet character (RFC 4648 §5), `none` for a
character outside the alphabet.  Mirrors Go's `base64.RawURLEncoding`
alphabet `A-Za-z0-9-_` with no padding. -/
def b64Val (c : Char) : Option Nat :=
  if 'A' ≤ c ∧ c ≤ 'Z' then some (c.toNat - 65)
  else if 'a' ≤ c ∧ c ≤ 'z' then some (c.toNat - 97 + 26)
  else if '0' ≤ c ∧ c ≤ '9' then some (c.toNat - 48 + 52)
  else if c = '-' then some 62
  else if c = '_' then some 63
  else none

/-- Unpadded base64url decoding over a character list, as performed by
Go's `base64.RawURLEncoding.DecodeString`: groups of four characters
decode to three bytes, a final group of two or three characters decodes
to one or two bytes, a final group of one character is an error, and
any character outside the alphabet is an error. -/
def rawURLDecodeAux : List Char → Option (List Nat)
  | [] => some []
  | [_] => none
  | [c1, c2] => do
      let v1 ← b64Val c1
      let v2 ← b64Val c2
      pure [v1 * 4 + v2 / 16]
  | [c1, c2, c3] => do
      let v1 ← b64Val c1
      let v2 ← b64Val c2
      let v3 ← b64Val c3
      pure [v1 * 4 + v2 / 16, (v2 % 16) * 16 + v3 / 4]
  | c1 :: c2 :: c3 :: c4 :: rest => do
      let v1 ← b64Val c1
      let v2 ← b64Val c2
      let v3 ← b64Val c3
      let v4 ← b64Val c4
      let tail ← rawURLDecodeAux rest
      pure ([v1 * 4 + v2 / 16, (v2 % 16) * 16 + v3 / 4, (v3 % 4) * 64 + v4] ++ tail)

/-- Unpadded base64url decoding of a Go string into its byte values. -/
def rawURLDecode (s : String) : Option (List Nat) :=
  rawURLDecodeAux s.data

/-- Big-endian interpretation of a byte sequence, as in Go's
`big.Int.SetBytes`. -/
def bytesToNat (bs : List Nat) : Nat :=
  bs.foldl (fun acc b => acc * 256 + b) 0

/-- Truncation of a non-negative big integer to a signed 64-bit value,
as performed by Go's `big.Int.Int64` on a value produced by
`SetBytes`. -/
def toInt64 (n : Nat) : Int :=
  let m : Nat := n % (2 ^ 64)
  if m < 2 ^ 63 then (m : Int) else (m : Int) - 2 ^ 64

/-- JWK: one entry of the JWKS endpoint response, mirroring the Go
struct `JWK` with fields `kid`, `kty`, `alg`, `use`, `n`, `e`. -/
structure JWK where
  kid : String
  kty : String
  alg : String
  usage : String
  n : String
  e : String
deriving DecidableEq, Repr

/-- RSAPublicKey mirrors Go's `rsa.PublicKey`: modulus `N : big.Int`
(non-negative) and exponent `E : int`. -/
structure RSAPublicKey where
  n : Nat
  e : Int
deriving DecidableEq, Repr

/-- Conversion failures of `jwkToRSAPublicKey`. -/
inductive ConvError
  | badModulus
  | badExponent
deriving DecidableEq, Repr

/-- jwkToRSAPublicKey converts a JWK to an RSA public key: decodes the
modulus and the exponent from unpadded base64url, failing if either
decode fails, then assembles `rsa.PublicKey{N: SetBytes(nBytes),
E: int(SetBytes(eBytes).Int64())}`. -/
def jwkToRSAPublicKey (jwk : JWK) : Except ConvError RSAPublicKey :=
  match rawURLDecode jwk.n with
  | none => .error .badModulus
  | some nBytes =>
    match rawURLDecode jwk.e with
    | none => .error .badExponent
    | some eBytes => .ok ⟨bytesToNat nBytes, toInt64 (bytesToNat eBytes)⟩

/-- KeyMap: the cached `map[string]*rsa.PublicKey`, modelled as an
association list whose lookup returns the first binding of a kid. -/
def KeyMap := List (String × RSAPublicKey)

/-- Lookup in the key map (Go map read `v.keys[kid]`). -/
def alistGet (m : KeyMap) (k : String) : Option RSAPublicKey :=
  match m with
  | [] => none
  | (k', v) :: rest => if k' == k then some v else alistGet rest k

/-- Insertion into the key map (Go map write `newKeys[jwk.Kid] = key`,
which overwrites any earlier binding of the same kid). -/
def alistInsert (m : KeyMap) (k : String) (v : RSAPublicKey) : KeyMap :=
  (k, v) :: m.filter (fun p => p.1 != k)

/-- ValidatorState: the mutable part of the Go `Validator` struct —
the cached kid-to-public-key map `keys` and the `lastFetch`
timestamp. -/
structure ValidatorState where
  keys : KeyMap
  lastFetch : Nat

/-- Failure modes of `refreshKeys`: request/transport error, non-200
status, JSON decode failure, or an RSA key whose JWK fields fail to
convert. -/
inductive RefreshError
  | netError
  | badStatus (code : Nat)
  | malformedJSON
  | badKey (e : ConvError)
deriving DecidableEq, Repr

/-- Body of a JWKS HTTP response: either the JSON decoder fails, or it
yields the `keys` list of the `JWKSResponse`. -/
inductive JWKSBody
  | malformed
  | jwks (keys : List JWK)

/-- Outcome of one HTTP GET against the JWKS endpoint, as observed by
`refreshKeys`: a request-creation/transport error, or a response with a
status code and a body. -/
inductive FetchResponse
  | netError
  | response (status : Nat) (body : JWKSBody)

/-- Loop of `refreshKeys` that converts the fetched JWKs into the new
key map: a key whose `kty` is not "RSA" is skipped with `continue`; an
RSA key that fails `jwkToRSAPublicKey` aborts the whole refresh with an
error; a converted key is stored under its kid. -/
def buildKeys : List JWK → KeyMap → Except RefreshError KeyMap
  | [], acc => .ok acc
  | jwk :: rest, acc =>
    if jwk.kty != "RSA" then buildKeys rest acc
    else
      match jwkToRSAPublicKey jwk with
      | .error e => .error (.badKey e)
      | .ok key => buildKeys rest (alistInsert acc jwk.kid key)

/-- refreshKeys fetches the JWKS document and caches the public keys:
a transport error, a non-200 status or a JSON decode failure abort with
an error before any mutation; otherwise the keys are converted by
`buildKeys` and, on success, the validator's `keys` map is replaced by
the new map and `lastFetch` by the current time.  The returned pair is
the validator state after the call together with the error, `none`
meaning success; every early-return path leaves the state it was given
untouched, exactly as the Go method mutates `v.keys`/`v.lastFetch` only
at its final success point. -/
def refreshKeysRun (st : ValidatorState) (resp : FetchResponse) (now : Nat) :
    ValidatorState × Option RefreshError :=
  match resp with
  | .netError => (st, some .netError)
  | .response status body =>
    if status ≠ 200 then (st, some (.badStatus status))
    else
      match body with
      | .malformed => (st, some .malformedJSON)
      | .jwks keys =>
        match buildKeys keys [] with
        | .error e => (st, some e)
        | .ok newKeys => (⟨newKeys, now⟩, none)

/-- World: the environment of network fetches during one validation
call; `fetch i` is what the JWKS endpoint returns to the i-th HTTP GET
issued so far (the call counter is threaded through the validator). -/
structure World where
  fetch : Nat → FetchResponse

/-- JSONValue: a decoded `interface{}` value of an untyped JSON field
(used for the `realm_access` claim, Go type
`map[string]interface{}`). -/
inductive JSONValue
  | str (s : String)
  | num (n : Int)
  | boolean (b : Bool)
  | null
  | arr (xs : List JSONValue)
  | obj (fields : List (String × JSONValue))

/-- Lookup of a field in a decoded JSON object (Go map index, `none`
when the key is absent). -/
def jsonLookup : List (String × JSONValue) → String → Option JSONValue
  | [], _ => none
  | (k, v) :: rest, key => if k == key then some v else jsonLookup rest key

/-- RegisteredClaims mirrors `jwt.RegisteredClaims`: `iss` and `sub`
are Go strings (empty when absent), the time claims are optional
`NumericDate` pointers modelled as optional epoch seconds. -/
structure RegisteredClaims where
  issuer : String
  subject : String
  audience : List String
  exp : Option Nat
  nbf : Option Nat
  iat : Option Nat

/-- KeycloakClaims mirrors the Go struct: the embedded registered
claims plus the Keycloak profile fields; `realm_access` and
`resource_access` are untyped JSON objects whose Go value is a nil map
when the claim is absent (modelled with `Option`). -/
structure KeycloakClaims where
  registered : RegisteredClaims
  email : String
  emailVerified : Bool
  preferredUsername : String
  givenName : String
  familyName : String
  realmAccess : Option (List (String × JSONValue))
  resourceAccess : Option (List (String × JSONValue))

/-- TokenHeader: the already-decoded JOSE header fields the validator
reads — the declared algorithm name and the optional string `kid`
(`none` also covers a `kid` of a non-string JSON type, which the Go
type assertion rejects the same way). -/
structure TokenHeader where
  alg : String
  kid : Option String

/-- ParsedToken: a compact token that `jwt.ParseUnverified`
successfully decodes — its header, its claims, and an abstract
signature-verification oracle standing for
`token.Method.Verify(signingString, signature, key)`, which depends
only on the resolved public key once the token is fixed. -/
structure ParsedToken where
  header : TokenHeader
  claims : KeycloakClaims
  sigValid : RSAPublicKey → Bool

/-- Membership of the declared algorithm in the RSA family accepted by
the keyfunc's type assertion `token.Method.(*jwt.SigningMethodRSA)`:
exactly the RS256/RS384/RS512 methods (the PSS and other methods are
distinct concrete types and fail the assertion). -/
def rsaFamily (alg : String) : Bool :=
  alg == "RS256" || alg == "RS384" || alg == "RS512"

/-- Failure modes of the keyfunc closure passed to
`jwt.ParseWithClaims`. -/
inductive KeyfuncError
  | unsupportedAlg (alg : String)
  | noKid
  | refreshFailed (e : RefreshError)
  | kidNotFound (kid : String)
deriving DecidableEq, Repr

/-- Result of running the keyfunc: the validator state and fetch
counter after the call, and the resolved key or the error. -/
structure KFOut where
  state : ValidatorState
  cnt : Nat
  result : Except KeyfuncError RSAPublicKey

/-- Keyfunc closure of `ValidateToken`, in source order: (1) reject if
the signing method is not `*jwt.SigningMethodRSA`; (2) read the string
`kid` from the header, rejecting if absent; (3) look the kid up in the
cached key map; (4) on a miss, call `refreshKeys` once — if the refresh
errors, fail with its error; otherwise look the kid up again in the
refreshed map and fail with a not-found error if it is still absent.
`cnt` counts the HTTP fetches issued so far; the world supplies the
response to each. -/
def keyfunc (w : World) (st : ValidatorState) (cnt : Nat) (hdr : TokenHeader)
    (now : Nat) : KFOut :=
  if rsaFamily hdr.alg = false then ⟨st, cnt, .error (.unsupportedAlg hdr.alg)⟩
  else
    match hdr.kid with
    | none => ⟨st, cnt, .error .noKid⟩
    | some kid =>
      match alistGet st.keys kid with
      | some key => ⟨st, cnt, .ok key⟩
      | none =>
        match refreshKeysRun st (w.fetch cnt) now with
        | (st', some e) => ⟨st', cnt + 1, .error (.refreshFailed e)⟩
        | (st', none) =>
          match alistGet st'.keys kid with
          | some key => ⟨st', cnt + 1, .ok key⟩
          | none => ⟨st', cnt + 1, .error (.kidNotFound kid)⟩

/-- Flags raised by the golang-jwt v5 default claims validator on the
time-based registered claims (all violations are joined into one
`ErrTokenInvalidClaims` error). -/
structure ClaimsValidation where
  expired : Bool
  beforeIssued : Bool
  notYetValid : Bool
deriving DecidableEq, Repr

/-- Default v5 claims validation with zero leeway: `exp`, when present,
must be strictly in the future (`now.Before(exp)`); `iat`, when
present, must not be in the future; `nbf`, when present, must not be in
the future.  An absent time claim raises no flag. -/
def validateClaims (c : RegisteredClaims) (now : Nat) : ClaimsValidation where
  expired := match c.exp with
    | some e => decide (e ≤ now)
    | none => false
  beforeIssued := match c.iat with
    | some i => decide (now < i)
    | none => false
  notYetValid := match c.nbf with
    | some n => decide (now < n)
    | none => false

/-- ClaimsValidation with no flags raised, i.e. the v5 validator
accepts the claims. -/
def cvOK (cv : ClaimsValidation) : Bool :=
  !cv.expired && !cv.beforeIssued && !cv.notYetValid

/-- Configuration fields of the Go `Validator` struct fixed at
construction time by `NewValidator`. -/
structure ValidatorConfig where
  jwksURL : String
  realm : String
  clientID : String

/-- Suffix that `ValidateToken` slices off the configured JWKS URL when
computing the expected issuer. -/
def certsSuffix : String := "/protocol/openid-connect/certs"

/-- Character-level model of the Go byte-slicing expression
`jwksURL[:len(jwksURL)-len("/protocol/openid-connect/certs")]` followed
by `fmt.Sprintf("%s/realms/%s", ..., realm)`: when the URL is shorter
than the 30-character suffix the slice bound is negative and Go panics
with a slice-bounds violation, modelled as `none`; otherwise the result
is the URL with its last 30 characters removed, then "/realms/", then
the realm. -/
def expectedIssuer (jwksURL realm : String) : Option String :=
  if jwksURL.data.length < certsSuffix.data.length then none
  else some (String.mk (jwksURL.data.take (jwksURL.data.length - certsSuffix.data.length))
    ++ "/realms/" ++ realm)

/-- Failure categories `ValidateToken` can return, wrapping the v5
parser's error taxonomy plus the repository's own issuer check. -/
inductive VError
  | refreshAtStart (e : RefreshError)
  | malformed
  | keyfuncError (e : KeyfuncError)
  | invalidSignature
  | invalidClaims (cv : ClaimsValidation)
  | invalidIssuer (expected got : String)

/-- Observable outcome of one `ValidateToken` call: verified claims, a
categorized error, or a Go runtime panic. -/
inductive VOutcome
  | ok (claims : KeycloakClaims)
  | err (e : VError)
  | panicked

/-- Result of one `ValidateToken` call: validator state and fetch
counter after the call, plus the outcome. -/
structure VTOut where
  state : ValidatorState
  cnt : Nat
  outcome : VOutcome

/-- Tail of `ValidateToken` after `jwt.ParseWithClaims` succeeded: the
claims type assertion and `token.Valid` hold by construction here, so
the method computes the expected issuer (which panics when the JWKS URL
is shorter than the certs suffix), rejects on an exact-string mismatch,
and otherwise returns the claims. -/
def validateTokenPost (cfg : ValidatorConfig) (st : ValidatorState) (cnt : Nat)
    (t : ParsedToken) : VTOut :=
  match expectedIssuer cfg.jwksURL cfg.realm with
  | none => ⟨st, cnt, .panicked⟩
  | some expected =>
    if t.claims.registered.issuer != expected then
      ⟨st, cnt, .err (.invalidIssuer expected t.claims.registered.issuer)⟩
    else ⟨st, cnt, .ok t.claims⟩

/-- Body of `jwt.ParseWithClaims` (golang-jwt v5 order) applied to the
repository's keyfunc, followed by the repository's post-parse checks:
a token that fails `ParseUnverified` is malformed; otherwise the
keyfunc runs (algorithm check, kid lookup, on-miss refresh); then the
signature is verified with the resolved key, returning
`ErrTokenSignatureInvalid` on failure; then — only after successful
signature verification — the default validator checks the time claims;
finally the issuer is checked by `validateTokenPost`. -/
def validateTokenParsed (w : World) (cfg : ValidatorConfig) (st : ValidatorState)
    (cnt : Nat) : Option ParsedToken → Nat → VTOut
  | none, _ => ⟨st, cnt, .err .malformed⟩
  | some t, now =>
    match keyfunc w st cnt t.header now with
    | ⟨st', cnt', .error e⟩ => ⟨st', cnt', .err (.keyfuncError e)⟩
    | ⟨st', cnt', .ok key⟩ =>
      if t.sigValid key = false then ⟨st', cnt', .err .invalidSignature⟩
      else
        let cv := validateClaims t.claims.registered now
        if cvOK cv = false then ⟨st', cnt', .err (.invalidClaims cv)⟩
        else validateTokenPost cfg st' cnt' t

/-- ValidateToken: if more than one hour has elapsed since `lastFetch`,
refresh the keys first, returning the refresh error on failure; then
parse and validate the token as `jwt.ParseWithClaims` does with the
repository's keyfunc, and finish with the claims/issuer checks. -/
def validateToken (w : World) (cfg : ValidatorConfig) (st : ValidatorState)
    (cnt : Nat) (tok : Option ParsedToken) (now : Nat) : VTOut :=
  if st.lastFetch + 3600 < now then
    match refreshKeysRun st (w.fetch cnt) now with
    | (st', some e) => ⟨st', cnt + 1, .err (.refreshAtStart e)⟩
    | (st', none) => validateTokenParsed w cfg st' (cnt + 1) tok now
  else validateTokenParsed w cfg st cnt tok now

/-- HasRealmRole checks whether the claims carry a given realm role:
a nil `realm_access` map yields false; a `roles` field that is absent
or not a JSON array yields false; otherwise the role must occur among
the string elements of the array (non-string elements are skipped). -/
def HasRealmRole (c : KeycloakClaims) (role : String) : Bool :=
  match c.realmAccess with
  | none => false
  | some m =>
    match jsonLookup m "roles" with
    | some (.arr roles) =>
      roles.any (fun r =>
        match r with
        | .str s => s == role
        | _ => false)
    | _ => false

/-- Env: the process environment as read by `os.Getenv`, which returns
the empty string for an unset variable (so unset and empty are
indistinguishable, exactly as in the Go config loader). -/
def Env := String → String

/-- Helper `getEnv` of the config package: the environment value when
it is non-empty, the default otherwise. -/
def getEnv (env : Env) (key defaultValue : String) : String :=
  if env key != "" then env key else defaultValue

/-- Config mirrors the string-valued fields of the Go `config.Config`
struct.  The numeric fields (`DatabaseMaxConns`, `DatabaseMaxIdleConns`,
`DatabaseConnLifetime`, `RedisDB`, `RedisTTL`) are read through
`getEnvInt`/`getEnvDuration`, are never consulted by `validate`, and no
claim concerns them, so they are left out of the embedding. -/
structure Config where
  serviceName : String
  port : String
  ginMode : String
  databaseURL : String
  redisAddr : String
  redisPassword : String
  keycloakURL : String
  keycloakRealm : String
  keycloakClientID : String
  keycloakClientSecret : String
  keycloakJWKSURL : String
  svedprintServiceURL : String
  svedprintAdminServiceURL : String
  svedprintPrintServiceURL : String
  logLevel : String

/-- Service-specific validation of `config.Config.validate`: the
gateway requires a non-empty `DATABASE_URL` and a non-empty
`KEYCLOAK_JWKS_URL`; the svedprint and svedprint-admin services require
only `DATABASE_URL`; the print service requires nothing; an unknown
service name is an error.  Returns the error message, `none` on
success. -/
def configValidate (c : Config) : Option String :=
  if c.serviceName == "" then some "service name is required"
  else if c.serviceName == "gateway" then
    if c.databaseURL == "" then some "DATABASE_URL is required for gateway service"
    else if c.keycloakJWKSURL == "" then
      some "KEYCLOAK_JWKS_URL is required for gateway service"
    else none
  else if c.serviceName == "svedprint" || c.serviceName == "svedprint-admin" then
    if c.databaseURL == "" then
      some ("DATABASE_URL is required for " ++ c.serviceName ++ " service")
    else none
  else if c.serviceName == "svedprint-print" then none
  else some ("unknown service name: " ++ c.serviceName)

/-- Load of the config package: builds the config from the environment
with the documented defaults (`DATABASE_URL` and `KEYCLOAK_JWKS_URL`
default to the empty string) and fails when `validate` reports an
error. -/
def loadConfig (env : Env) (serviceName : String) : Except String Config :=
  let cfg : Config := {
    serviceName := serviceName
    port := getEnv env "PORT" "8080"
    ginMode := getEnv env "GIN_MODE" "debug"
    databaseURL := getEnv env "DATABASE_URL" ""
    redisAddr := getEnv env "REDIS_ADDR" "localhost:6379"
    redisPassword := getEnv env "REDIS_PASSWORD" ""
    keycloakURL := getEnv env "KEYCLOAK_URL" "http://localhost:8080"
    keycloakRealm := getEnv env "KEYCLOAK_REALM" "svedprint"
    keycloakClientID := getEnv env "KEYCLOAK_CLIENT_ID" "svedprint-backend"
    keycloakClientSecret := getEnv env "KEYCLOAK_CLIENT_SECRET" ""
    keycloakJWKSURL := getEnv env "KEYCLOAK_JWKS_URL" ""
    svedprintServiceURL := getEnv env "SVEDPRINT_SERVICE_URL" "http://svedprint:8001"
    svedprintAdminServiceURL :=
      getEnv env "SVEDPRINT_ADMIN_SERVICE_URL" "http://svedprint-admin:8002"
    svedprintPrintServiceURL :=
      getEnv env "SVEDPRINT_PRINT_SERVICE_URL" "http://svedprint-print:8003"
    logLevel := getEnv env "LOG_LEVEL" "info" }
  match configValidate cfg with
  | some e => .error ("config validation failed: " ++ e)
  | none => .ok cfg

/-- Outcome of the configuration step of `gateway.NewServer`: the Go
code panics ("Failed loading config for gateway!") when `config.Load`
fails, before any route is registered or traffic accepted. -/
inductive ServerStart
  | panicked
  | started (cfg : Config)

/-- Configuration step of `gateway.NewServer`: load the gateway config
and panic on failure. -/
def newServerConfigStep (env : Env) : ServerStart :=
  match loadConfig env "gateway" with
  | .error _ => .panicked
  | .ok cfg => .started cfg

/-- LogEntry of the Log Pipeline, with the fields the spec's data model
lists. -/
structure LogEntry where
  timestamp : Nat
  method : String
  incomingPath : String
  resolvedPath : Option String
  subject : Option String
  realm : Option String
  statusCode : Nat
  latencyMs : Nat
  upstreamService : Option String
  errorMessage : Option String

/-- PipelineState: the bounded log queue (capacity N), its current
contents, and the cumulative drop counter. -/
structure PipelineState where
  capacity : Nat
  queue : List LogEntry
  dropped : Nat

/-- Modelled from the spec: the Log Pipeline implementation (the
bounded queue, its non-blocking enqueue and its drop counter) is not
among the repository files available under src/ — only its SQL schema
and batch-insert queries are.  Per the spec, producers attempt a
non-blocking enqueue; if the queue is full the entry is dropped and the
drop counter is incremented; otherwise the entry joins the queue.  The
Boolean result is true when the entry was accepted, false when it was
dropped. -/
def enqueue (st : PipelineState) (e : LogEntry) : PipelineState × Bool :=
  if st.queue.length < st.capacity then
    ({ st with queue := st.queue ++ [e] }, true)
  else
    ({ st with dropped := st.dropped + 1 }, false)

/-- Modelled from the spec: state of the pipeline after a sequence of
enqueue attempts. -/
def enqueueAll (st : PipelineState) (es : List LogEntry) : PipelineState :=
  es.foldl (fun s e => (enqueue s e).1) st

/-- Number of attempts in a sequence of enqueues that return
"dropped". -/
def dropCount : PipelineState → List LogEntry → Nat
  | _, [] => 0
  | st, e :: rest =>
    match enqueue st e with
    | (st', accepted) => (if accepted then 0 else 1) + dropCount st' rest

/-! Concrete fixtures used by the witness and counterexample
theorems. -/

/-- Public key decoded from the base64url JWK fields "AQAB"
(bytes 1,0,1 = 65537). -/
def keyA : RSAPublicKey := ⟨65537, 65537⟩

/-- Well-formed RSA JWK with kid "A". -/
def jwkA : JWK := ⟨"A", "RSA", "RS256", "sig", "AQAB", "AQAB"⟩

/-- Non-RSA JWK (skipped by the refresh loop). -/
def jwkEC : JWK := ⟨"C", "EC", "ES256", "sig", "!!", "!!"⟩

/-- RSA JWK whose modulus field is not valid base64url. -/
def jwkBad : JWK := ⟨"B", "RSA", "RS256", "sig", "!!!", "AQAB"⟩

/-- Validator state caching the key with kid "A", last fetched at
time 100. -/
def stA : ValidatorState := ⟨[("A", keyA)], 100⟩

/-- Validator state with an empty key cache. -/
def stEmpty : ValidatorState := ⟨[], 100⟩

/-- World whose JWKS endpoint always returns the single key
`jwkA`. -/
def wA : World := ⟨fun _ => .response 200 (.jwks [jwkA])⟩

/-- Token header declaring RS256 and kid "A". -/
def hdrA : TokenHeader := ⟨"RS256", some "A"⟩

/-- Token header declaring the non-RSA algorithm HS256. -/
def hdrHS : TokenHeader := ⟨"HS256", some "A"⟩

/-- Validator configuration whose JWKS URL carries the standard certs
suffix. -/
def cfgA : ValidatorConfig :=
  ⟨"http://kc/protocol/openid-connect/certs", "svedprint", "svedprint-backend"⟩

/-- Validator configuration whose JWKS URL is shorter than the certs
suffix. -/
def cfgShort : ValidatorConfig := ⟨"http://kc", "svedprint", "svedprint-backend"⟩

/-- Registered claims with the issuer expected under `cfgA` and no
time claims. -/
def regOK : RegisteredClaims := ⟨"http://kc/realms/svedprint", "user-1", [], none, none, none⟩

/-- Registered claims as `regOK` but expired at time 10. -/
def regExp : RegisteredClaims :=
  ⟨"http://kc/realms/svedprint", "user-1", [], some 10, none, none⟩

/-- Keycloak claims wrapping `regOK`. -/
def claimsOK : KeycloakClaims := ⟨regOK, "u@example.com", true, "user", "G", "F", none, none⟩

/-- Keycloak claims wrapping `regExp`. -/
def claimsExp : KeycloakClaims := ⟨regExp, "u@example.com", true, "user", "G", "F", none, none⟩

/-- Parsed token with header `hdrA`, valid claims and a signature that
verifies under every key. -/
def tokOK : ParsedToken := ⟨hdrA, claimsOK, fun _ => true⟩

/-- Parsed token with expired claims and a signature that verifies. -/
def tokExpGoodSig : ParsedToken := ⟨hdrA, claimsExp, fun _ => true⟩

/-- Parsed token with expired claims and a signature that does not
verify under any key. -/
def tokExpBadSig : ParsedToken := ⟨hdrA, claimsExp, fun _ => false⟩

/-- Environment binding no variables. -/
def envEmpty : Env := fun _ => ""

/-- Environment binding the gateway's two required variables. -/
def envGood : Env := fun k =>
  if k == "DATABASE_URL" then "postgres://db/svedprint"
  else if k == "KEYCLOAK_JWKS_URL" then "http://kc/protocol/openid-connect/certs"
  else ""

/-- Sample log entry. -/
def entryA : LogEntry := ⟨1, "GET", "/health", none, none, none, 200, 3, none, none⟩

/-- Log pipeline of capacity 2 whose queue is full. -/
def pipeFull : PipelineState := ⟨2, [entryA, entryA], 0⟩

/-- Empty log pipeline of capacity 2. -/
def pipeEmpty : PipelineState := ⟨2, [], 0⟩

/-! Helper lemmas. -/

/-- Every error-returning path of `refreshKeysRun` leaves the validator
state exactly as it was. -/
theorem refreshKeysRun_error_state (st : ValidatorState) (resp : FetchResponse)
    (now : Nat) (st' : ValidatorState) (e : RefreshError)
    (h : refreshKeysRun st resp now = (st', some e)) : st' = st := by
  cases resp with
  | netError =>
    simp only [refreshKeysRun] at h
    injection h with h1 h2
    exact h1.symm
  | response status body =>
    simp only [refreshKeysRun] at h
    split at h
    · injection h with h1 h2
      exact h1.symm
    · split at h
      · injection h with h1 h2
        exact h1.symm
      · split at h
        · injection h with h1 h2
          exact h1.symm
        · injection h with h1 h2
          exact Option.noConfusion h2

/-! Claim C1. -/

/-- C1 counterexample: a 200 response whose JWKS body decodes to zero
keys is not treated as a refresh failure by the code — `refreshKeys`
returns no error and replaces the previously published key map (which
held the key "A") with the empty map, so a refresh yielding zero valid
keys neither leaves the previous key map unchanged nor surfaces an
error. -/
theorem zero_valid_keys_refresh_succeeds :
    (refreshKeysRun stA (.response 200 (.jwks [])) 200).2 = none ∧
    (refreshKeysRun stA (.response 200 (.jwks [])) 200).1.keys = [] ∧
    stA.keys ≠ [] := by
  refine ⟨rfl, rfl, ?_⟩
  simp [stA]

/-- C1 (amended): every Key Store refresh that fails — network error,
non-200 response, or malformed JSON — leaves the previously published
key map (and the last-fetch timestamp) unchanged, and the failure is
surfaced to the caller as a distinguishable `RefreshError` value rather
than a crash; each of the three named causes produces such an error.
(A response yielding zero valid keys is not a failure: the refresh
succeeds and installs the empty map.) -/
theorem refresh_failure_leaves_keys_intact (st : ValidatorState)
    (resp : FetchResponse) (now : Nat) :
    (∀ st' e, refreshKeysRun st resp now = (st', some e) → st' = st) ∧
    (refreshKeysRun st .netError now).2 = some .netError ∧
    (∀ code body, code ≠ 200 →
      (refreshKeysRun st (.response code body) now).2 = some (.badStatus code)) ∧
    (refreshKeysRun st (.response 200 .malformed) now).2 = some .malformedJSON := by
  refine ⟨fun st' e h => refreshKeysRun_error_state st resp now st' e h, rfl, ?_, ?_⟩
  · intro code body hc
    simp [refreshKeysRun, hc]
  · simp [refreshKeysRun]

/-- Witness for C1: the amended theorem applied to the concrete cached
state `stA`, a transport error, and a concrete 503 response. -/
theorem refresh_failure_leaves_keys_intact_witness :
    (refreshKeysRun stA .netError 200).2 = some .netError ∧
    (refreshKeysRun stA (.response 503 .malformed) 200).2 = some (.badStatus 503) :=
  ⟨(refresh_failure_leaves_keys_intact stA .netError 200).2.1,
   (refresh_failure_leaves_keys_intact stA (.response 503 .malformed) 200).2.2.1
     503 .malformed (by decide)⟩

/-! Claim C2. -/

/-- C2: when the token's kid is absent from the current key map (with
an RSA-family algorithm, so the lookup is reached), the key-resolution
step of ValidateToken issues exactly one refresh — the fetch counter
rises by exactly one, so there is no second attempt — and then: any key
found under the kid in the post-refresh map is the one validation
proceeds with; after a successful refresh that still lacks the kid the
result is the unknown-key error; after a failed refresh the result is
that refresh error. -/
theorem onmiss_exactly_one_refresh (w : World) (st : ValidatorState) (cnt : Nat)
    (hdr : TokenHeader) (now : Nat) (kid : String)
    (halg : rsaFamily hdr.alg = true) (hkid : hdr.kid = some kid)
    (hmiss : alistGet st.keys kid = none) :
    (keyfunc w st cnt hdr now).cnt = cnt + 1 ∧
    (∀ key, alistGet (keyfunc w st cnt hdr now).state.keys kid = some key →
      (keyfunc w st cnt hdr now).result = .ok key) ∧
    ((refreshKeysRun st (w.fetch cnt) now).2 = none →
      alistGet (keyfunc w st cnt hdr now).state.keys kid = none →
      (keyfunc w st cnt hdr now).result = .error (.kidNotFound kid)) ∧
    (∀ e, (refreshKeysRun st (w.fetch cnt) now).2 = some e →
      (keyfunc w st cnt hdr now).result = .error (.refreshFailed e)) := by
  rcases hr : refreshKeysRun st (w.fetch cnt) now with ⟨st2, oe⟩
  cases oe with
  | some e =>
    have hkf : keyfunc w st cnt hdr now = ⟨st2, cnt + 1, .error (.refreshFailed e)⟩ := by
      simp [keyfunc, halg, hkid, hmiss, hr]
    have hst2 : st2 = st := refreshKeysRun_error_state st (w.fetch cnt) now st2 e hr
    rw [hkf]
    refine ⟨rfl, ?_, ?_, ?_⟩
    · intro key hkey
      rw [hst2, hmiss] at hkey
      exact Option.noConfusion hkey
    · intro hnone
      exact Option.noConfusion hnone
    · intro e' he'
      injection he' with he2
      rw [he2]
  | none =>
    cases hg : alistGet st2.keys kid with
    | some k =>
      have hkf : keyfunc w st cnt hdr now = ⟨st2, cnt + 1, .ok k⟩ := by
        simp [keyfunc, halg, hkid, hmiss, hr, hg]
      rw [hkf]
      refine ⟨rfl, ?_, ?_, ?_⟩
      · intro key hkey
        rw [hg] at hkey
        injection hkey with hk
        rw [hk]
      · intro _ hnone
        rw [hg] at hnone
        exact Option.noConfusion hnone
      · intro e' he'
        exact Option.noConfusion he'
    | none =>
      have hkf : keyfunc w st cnt hdr now = ⟨st2, cnt + 1, .error (.kidNotFound kid)⟩ := by
        simp [keyfunc, halg, hkid, hmiss, hr, hg]
      rw [hkf]
      refine ⟨rfl, ?_, ?_, ?_⟩
      · intro key hkey
        rw [hg] at hkey
        exact Option.noConfusion hkey
      · intro _ _
        rfl
      · intro e' he'
        exact Option.noConfusion he'

/-- Witness for C2: the on-miss refresh against the empty cache with a
world that serves the single key `jwkA`: the counter rises from 0 to 1
and the freshly fetched key "A" is the one returned. -/
theorem onmiss_exactly_one_refresh_witness :
    (keyfunc wA stEmpty 0 hdrA 100).cnt = 0 + 1 ∧
    (keyfunc wA stEmpty 0 hdrA 100).result = .ok keyA := by
  have h := onmiss_exactly_one_refresh wA stEmpty 0 hdrA 100 "A" rfl rfl rfl
  exact ⟨h.1, h.2.1 keyA rfl⟩

/-! Claim C3. -/

/-- C3: a token whose declared signing algorithm is outside the RSA
family is rejected by the keyfunc with the unsupported-algorithm error
before the kid is read and before any key-map lookup: the result is the
same for every kid value and every cached key map, the validator state
is untouched, and the fetch counter does not move (no lookup or refresh
happens). -/
theorem nonrsa_alg_rejected_before_lookup (w : World) (st : ValidatorState)
    (cnt : Nat) (hdr : TokenHeader) (now : Nat)
    (h : rsaFamily hdr.alg = false) :
    keyfunc w st cnt hdr now = ⟨st, cnt, .error (.unsupportedAlg hdr.alg)⟩ := by
  simp [keyfunc, h]

/-- Witness for C3: a token declaring HS256 with a kid that is present
in the cache is still rejected with the unsupported-algorithm error
and without touching the fetch counter. -/
theorem nonrsa_alg_rejected_before_lookup_witness :
    keyfunc wA stA 0 hdrHS 100 = ⟨stA, 0, .error (.unsupportedAlg "HS256")⟩ :=
  nonrsa_alg_rejected_before_lookup wA stA 0 hdrHS 100 rfl

/-! Claim C4. -/

/-- Length of the certs suffix sliced off the JWKS URL. -/
theorem certsSuffix_length : certsSuffix.data.length = 30 := rfl

/-- When the configured JWKS URL is the provider base followed by the
certs suffix, the expected-issuer computation yields exactly the base
followed by "/realms/" and the realm. -/
theorem expectedIssuer_append (base realm : String) :
    expectedIssuer (base ++ certsSuffix) realm =
      some (base ++ "/realms/" ++ realm) := by
  unfold expectedIssuer
  have hdata : (base ++ certsSuffix).data = base.data ++ certsSuffix.data := rfl
  rw [hdata, List.length_append, certsSuffix_length]
  rw [if_neg (by omega)]
  have htake : (base.data ++ certsSuffix.data).take (base.data.length + 30 - 30) =
      base.data := by
    have h30 : base.data.length + 30 - 30 = base.data.length := by omega
    rw [h30]
    exact List.take_left base.data certsSuffix.data
  rw [htake]

/-- C4: for a token that reaches the issuer check (fresh cache, parsed
token, RSA-family algorithm, kid resolved from the cache, valid
signature, valid time claims) and a JWKS URL of the form
base ++ certsSuffix, ValidateToken returns the claims exactly when the
token's issuer equals base ++ "/realms/" ++ realm, and any other issuer
is rejected with the invalid-issuer error carrying that expected
string. -/
theorem issuer_must_match_exactly (w : World) (cfg : ValidatorConfig)
    (st : ValidatorState) (cnt : Nat) (t : ParsedToken) (now : Nat)
    (base : String) (kid : String) (key : RSAPublicKey)
    (hurl : cfg.jwksURL = base ++ certsSuffix)
    (hfresh : ¬ st.lastFetch + 3600 < now)
    (halg : rsaFamily t.header.alg = true)
    (hkid : t.header.kid = some kid)
    (hget : alistGet st.keys kid = some key)
    (hsig : t.sigValid key = true)
    (hcv : cvOK (validateClaims t.claims.registered now) = true) :
    ((validateToken w cfg st cnt (some t) now).outcome = .ok t.claims ↔
      t.claims.registered.issuer = base ++ "/realms/" ++ cfg.realm) ∧
    (t.claims.registered.issuer ≠ base ++ "/realms/" ++ cfg.realm →
      (validateToken w cfg st cnt (some t) now).outcome =
        .err (.invalidIssuer (base ++ "/realms/" ++ cfg.realm)
          t.claims.registered.issuer)) := by
  have hvt : validateToken w cfg st cnt (some t) now =
      validateTokenPost cfg st cnt t := by
    simp [validateToken, hfresh, validateTokenParsed, keyfunc, halg, hkid, hget,
      hsig, hcv]
  rw [hvt]
  unfold validateTokenPost
  rw [hurl, expectedIssuer_append]
  by_cases hiss : t.claims.registered.issuer = base ++ "/realms/" ++ cfg.realm
  · simp [hiss]
  · simp [hiss]

/-- Witness for C4: with the concrete configuration `cfgA`, cached key
"A" and token `tokOK` whose issuer is "http://kc/realms/svedprint",
validation returns the token's claims. -/
theorem issuer_must_match_exactly_witness :
    (validateToken wA cfgA stA 0 (some tokOK) 100).outcome = .ok tokOK.claims :=
  ((issuer_must_match_exactly wA cfgA stA 0 tokOK 100 "http://kc" "A" keyA
    (by decide) (by decide) rfl rfl rfl rfl (by decide)).1).mpr (by decide)

/-! Claim C5. -/

/-- Helper: when the v5 default claims validation fails, the parsed
pipeline never returns claims, whatever path the key resolution and
signature check take. -/
theorem validateTokenParsed_no_ok (w : World) (cfg : ValidatorConfig)
    (st : ValidatorState) (cnt : Nat) (t : ParsedToken) (now : Nat)
    (hcvf : cvOK (validateClaims t.claims.registered now) = false) :
    ∀ c, (validateTokenParsed w cfg st cnt (some t) now).outcome ≠ .ok c := by
  intro c
  simp only [validateTokenParsed]
  rcases hk : keyfunc w st cnt t.header now with ⟨st2, cnt2, res⟩
  cases res with
  | error e => simp
  | ok key =>
    cases hsg : t.sigValid key with
    | false => simp [hsg]
    | true => simp [hsg, hcvf]

/-- C5 (amended): for every token whose exp claim lies in the past at
validation time, ValidateToken never returns a Claims value; moreover,
when the token reaches the signature check with a resolved key, the
failure is the Expired claims failure if the signature verifies, and
the invalid-signature failure if it does not — the v5 parser verifies
the signature before validating the claims, so an expired token with a
bad signature reports InvalidSignature, not Expired. -/
theorem expired_token_never_accepted (w : World) (cfg : ValidatorConfig)
    (st : ValidatorState) (cnt : Nat) (t : ParsedToken) (now e : Nat)
    (hexp : t.claims.registered.exp = some e) (hpast : e < now) :
    (∀ c, (validateToken w cfg st cnt (some t) now).outcome ≠ .ok c) ∧
    ((validateClaims t.claims.registered now).expired = true) ∧
    (∀ kid key, ¬ st.lastFetch + 3600 < now →
      rsaFamily t.header.alg = true → t.header.kid = some kid →
      alistGet st.keys kid = some key →
      (t.sigValid key = true →
        (validateToken w cfg st cnt (some t) now).outcome =
          .err (.invalidClaims (validateClaims t.claims.registered now))) ∧
      (t.sigValid key = false →
        (validateToken w cfg st cnt (some t) now).outcome =
          .err .invalidSignature)) := by
  have hcek : (validateClaims t.claims.registered now).expired = true := by
    simp [validateClaims, hexp]
    omega
  have hcvf : cvOK (validateClaims t.claims.registered now) = false := by
    simp [cvOK, hcek]
  refine ⟨?_, hcek, ?_⟩
  · intro c
    unfold validateToken
    split
    · rcases hr : refreshKeysRun st (w.fetch cnt) now with ⟨st2, oe⟩
      cases oe with
      | some e2 => simp
      | none => exact validateTokenParsed_no_ok w cfg st2 (cnt + 1) t now hcvf c
    · exact validateTokenParsed_no_ok w cfg st cnt t now hcvf c
  · intro kid key hfresh halg hkid hget
    constructor
    · intro hsg
      simp [validateToken, hfresh, validateTokenParsed, keyfunc, halg, hkid, hget,
        hsg, hcvf]
    · intro hsg
      simp [validateToken, hfresh, validateTokenParsed, keyfunc, halg, hkid, hget,
        hsg]

/-- C5 counterexample: the concrete token `tokExpBadSig` is expired
(exp = 10, validated at time 100) and its signature does not verify;
ValidateToken reports the invalid-signature failure, not the Expired
claims failure, so an expired token is not rejected with Expired
regardless of signature validity. -/
theorem expired_token_counterexample :
    claimsExp.registered.exp = some 10 ∧
    (validateToken wA cfgA stA 0 (some tokExpBadSig) 100).outcome =
      .err .invalidSignature ∧
    (validateToken wA cfgA stA 0 (some tokExpBadSig) 100).outcome ≠
      .err (.invalidClaims (validateClaims claimsExp.registered 100)) := by
  refine ⟨rfl, rfl, ?_⟩
  rw [show (validateToken wA cfgA stA 0 (some tokExpBadSig) 100).outcome =
    .err .invalidSignature from rfl]
  intro h
  injection h with h2
  exact VError.noConfusion h2

/-- Witness for C5: the amended theorem applied to the expired token
with a verifying signature yields the Expired claims failure. -/
theorem expired_token_never_accepted_witness :
    (validateToken wA cfgA stA 0 (some tokExpGoodSig) 100).outcome =
      .err (.invalidClaims (validateClaims claimsExp.registered 100)) :=
  ((expired_token_never_accepted wA cfgA stA 0 tokExpGoodSig 100 10 rfl
    (by decide)).2.2 "A" keyA (by decide) rfl rfl rfl).1 rfl

/-! Claim C6. -/

/-- Helper: the role loop of HasRealmRole finds a match exactly when
the role occurs as a string element of the array. -/
theorem any_role_str_eq (roles : List JSONValue) (role : String) :
    (∃ x ∈ roles, (match x with
      | JSONValue.str s => s == role
      | _ => false) = true) ↔ JSONValue.str role ∈ roles := by
  constructor
  · rintro ⟨x, hx, hp⟩
    cases x with
    | str s =>
      have hs : s = role := by simpa using hp
      rwa [hs] at hx
    | num n => simp at hp
    | boolean b => simp at hp
    | null => simp at hp
    | arr xs => simp at hp
    | obj fs => simp at hp
  · intro h
    exact ⟨JSONValue.str role, h, by simp⟩

/-- C6: HasRealmRole returns true exactly when the role occurs as a
string element of the roles array inside the realm_access claim; in
every other situation — realm_access absent, roles field absent, roles
not an array, role absent from the array — it returns false (it is a
total Boolean predicate, so no error is possible). -/
theorem hasRealmRole_iff_role_mem (c : KeycloakClaims) (role : String) :
    HasRealmRole c role = true ↔
      ∃ m roles, c.realmAccess = some m ∧
        jsonLookup m "roles" = some (.arr roles) ∧ JSONValue.str role ∈ roles := by
  unfold HasRealmRole
  cases hra : c.realmAccess with
  | none => simp
  | some m =>
    cases hl : jsonLookup m "roles" with
    | none => simp [hl]
    | some v => cases v <;> simp [hl, any_role_str_eq]

/-! Claim C7. -/

/-- Helper: `getEnv` with an empty default is exactly the raw
environment read, since unset variables already read as empty. -/
theorem getEnv_empty_default (env : Env) (key : String) :
    getEnv env key "" = env key := by
  unfold getEnv
  by_cases h : env key = ""
  · simp [h]
  · simp [h]

/-- C7: loading the gateway configuration fails (and `NewServer`
panics before serving) whenever KEYCLOAK_JWKS_URL reads empty or unset;
and for every environment where KEYCLOAK_JWKS_URL and DATABASE_URL are
both non-empty, gateway config validation succeeds. -/
theorem gateway_requires_jwks_url (env : Env) :
    (env "KEYCLOAK_JWKS_URL" = "" →
      (∃ msg, loadConfig env "gateway" = .error msg) ∧
      newServerConfigStep env = .panicked) ∧
    (env "KEYCLOAK_JWKS_URL" ≠ "" → env "DATABASE_URL" ≠ "" →
      ∃ cfg, loadConfig env "gateway" = .ok cfg) := by
  constructor
  · intro hjw
    have herr : ∃ msg, loadConfig env "gateway" = .error msg := by
      cases hlc : loadConfig env "gateway" with
      | error msg => exact ⟨msg, rfl⟩
      | ok cfg =>
        exfalso
        unfold loadConfig at hlc
        by_cases hdb : env "DATABASE_URL" = "" <;>
          simp [configValidate, getEnv_empty_default, hdb, hjw] at hlc
    rcases herr with ⟨msg, hm⟩
    refine ⟨⟨msg, hm⟩, ?_⟩
    unfold newServerConfigStep
    rw [hm]
  · intro hjw hdb
    cases hlc : loadConfig env "gateway" with
    | ok cfg => exact ⟨cfg, rfl⟩
    | error msg =>
      exfalso
      unfold loadConfig at hlc
      simp [configValidate, getEnv_empty_default, hdb, hjw] at hlc

/-- Witness for C7: the empty environment panics at the configuration
step, and an environment supplying both required variables loads
successfully. -/
theorem gateway_requires_jwks_url_witness :
    newServerConfigStep envEmpty = .panicked ∧
    (loadConfig envGood "gateway").isOk = true := by
  constructor
  · exact ((gateway_requires_jwks_url envEmpty).1 rfl).2
  · obtain ⟨cfg, hc⟩ := (gateway_requires_jwks_url envGood).2 (by decide) (by decide)
    rw [hc]
    rfl

/-! Claim C8. -/

/-- Helper: over any sequence of enqueue attempts, the drop counter
rises by exactly the number of attempts that returned "dropped". -/
theorem enqueueAll_dropped (st : PipelineState) (es : List LogEntry) :
    (enqueueAll st es).dropped = st.dropped + dropCount st es := by
  induction es generalizing st with
  | nil => simp [enqueueAll, dropCount]
  | cons e rest ih =>
    rcases hq : enqueue st e with ⟨st2, acc⟩
    have hdrop : st2.dropped = st.dropped + (if acc then 0 else 1) := by
      unfold enqueue at hq
      split at hq
      · injection hq with h1 h2
        rw [← h1, ← h2]
        simp
      · injection hq with h1 h2
        rw [← h1, ← h2]
        simp
    have h1 : enqueueAll st (e :: rest) = enqueueAll st2 rest := by
      simp [enqueueAll, hq]
    have h2 : dropCount st (e :: rest) = (if acc then 0 else 1) + dropCount st2 rest := by
      simp [dropCount, hq]
    rw [h1, h2, ih st2, hdrop]
    omega

/-- C8 (spec-modelled): enqueueing is a total operation — it always
returns, never waiting on the sink — and over any sequence of attempts
the drop counter rises by exactly the number of dropped attempts and
never decreases; every attempt made while the queue holds at least its
capacity returns "dropped" and bumps the counter by exactly one. -/
theorem enqueue_drop_policy (st : PipelineState) (es : List LogEntry) :
    (enqueueAll st es).dropped = st.dropped + dropCount st es ∧
    (∀ s : PipelineState, ∀ e : LogEntry, s.capacity ≤ s.queue.length →
      enqueue s e = ({ s with dropped := s.dropped + 1 }, false)) ∧
    st.dropped ≤ (enqueueAll st es).dropped := by
  refine ⟨enqueueAll_dropped st es, ?_, ?_⟩
  · intro s e hcap
    unfold enqueue
    rw [if_neg (by omega)]
  · rw [enqueueAll_dropped st es]
    omega

/-- Witness for C8: the full capacity-2 pipeline drops a concrete
entry and counts it, and a five-entry burst against the empty
capacity-2 pipeline raises the counter by exactly its drop count. -/
theorem enqueue_drop_policy_witness :
    enqueue pipeFull entryA = ({ pipeFull with dropped := pipeFull.dropped + 1 }, false) ∧
    (enqueueAll pipeEmpty [entryA, entryA, entryA, entryA, entryA]).dropped =
      pipeEmpty.dropped + dropCount pipeEmpty [entryA, entryA, entryA, entryA, entryA] :=
  ⟨(enqueue_drop_policy pipeFull []).2.1 pipeFull entryA (by decide),
   (enqueue_drop_policy pipeEmpty [entryA, entryA, entryA, entryA, entryA]).1⟩

/-! Claim C9. -/

/-- C9: when the configured JWKS URL is shorter than the 30-character
certs suffix, a token that passes key resolution, signature
verification and claims validation drives ValidateToken into the Go
slice-bounds panic while computing the expected issuer (instead of any
categorized error); and whenever the URL is at least 30 characters
long, the issuer computation is total (it always produces a value). -/
theorem short_jwks_url_panics (w : World) (cfg : ValidatorConfig)
    (st : ValidatorState) (cnt : Nat) (t : ParsedToken) (now : Nat)
    (kid : String) (key : RSAPublicKey)
    (hshort : cfg.jwksURL.data.length < 30)
    (hfresh : ¬ st.lastFetch + 3600 < now)
    (halg : rsaFamily t.header.alg = true)
    (hkid : t.header.kid = some kid)
    (hget : alistGet st.keys kid = some key)
    (hsig : t.sigValid key = true)
    (hcv : cvOK (validateClaims t.claims.registered now) = true) :
    (validateToken w cfg st cnt (some t) now).outcome = .panicked ∧
    (∀ url realm : String, 30 ≤ url.data.length →
      (expectedIssuer url realm).isSome = true) := by
  constructor
  · have hvt : validateToken w cfg st cnt (some t) now =
        validateTokenPost cfg st cnt t := by
      simp [validateToken, hfresh, validateTokenParsed, keyfunc, halg, hkid, hget,
        hsig, hcv]
    rw [hvt]
    unfold validateTokenPost
    have hnone : expectedIssuer cfg.jwksURL cfg.realm = none := by
      unfold expectedIssuer
      rw [certsSuffix_length, if_pos hshort]
    rw [hnone]
  · intro url realm hle
    unfold expectedIssuer
    rw [certsSuffix_length, if_neg (by omega)]
    rfl

/-- Witness for C9: the nine-character JWKS URL of `cfgShort` makes
validation of the otherwise fully valid token `tokOK` panic. -/
theorem short_jwks_url_panics_witness :
    (validateToken wA cfgShort stA 0 (some tokOK) 100).outcome = .panicked :=
  (short_jwks_url_panics wA cfgShort stA 0 tokOK 100 "A" keyA (by decide)
    (by decide) rfl rfl rfl rfl (by decide)).1

/-! Claim C10. -/

/-- Helper: if any RSA-typed key in the list fails conversion, the
whole build aborts with an error, whatever accumulator it started
from. -/
theorem buildKeys_error_of_badkey (bad : JWK) (hk : bad.kty = "RSA")
    (ce : ConvError) (hbad : jwkToRSAPublicKey bad = .error ce) :
    ∀ ks : List JWK, bad ∈ ks → ∀ acc, ∃ e, buildKeys ks acc = .error e := by
  intro ks
  induction ks with
  | nil =>
    intro h
    cases h
  | cons j rest ih =>
    intro hmem acc
    by_cases hj : j.kty = "RSA"
    · unfold buildKeys
      rw [if_neg (by simp [hj])]
      cases hc : jwkToRSAPublicKey j with
      | error e2 => exact ⟨.badKey e2, rfl⟩
      | ok key =>
        rcases List.mem_cons.mp hmem with heq | hmem2
        · rw [heq] at hbad
          rw [hc] at hbad
          exact Except.noConfusion hbad
        · exact ih hmem2 _
    · unfold buildKeys
      rw [if_pos (by simp [hj])]
      rcases List.mem_cons.mp hmem with heq | hmem2
      · exact absurd (heq ▸ hk) hj
      · exact ih hmem2 acc

/-- Helper: if every RSA-typed key in the list converts, the build
succeeds, whatever accumulator it started from — keys of other types
are merely skipped. -/
theorem buildKeys_ok_of_all_good :
    ∀ ks : List JWK,
      (∀ j ∈ ks, j.kty = "RSA" → ∃ k, jwkToRSAPublicKey j = .ok k) →
      ∀ acc, ∃ m, buildKeys ks acc = .ok m := by
  intro ks
  induction ks with
  | nil =>
    intro _ acc
    exact ⟨acc, rfl⟩
  | cons j rest ih =>
    intro hall acc
    by_cases hj : j.kty = "RSA"
    · obtain ⟨k, hkj⟩ := hall j (List.mem_cons_self j rest) hj
      unfold buildKeys
      rw [if_neg (by simp [hj]), hkj]
      exact ih (fun j2 hm hr => hall j2 (List.mem_cons_of_mem j hm) hr) _
    · unfold buildKeys
      rw [if_pos (by simp [hj])]
      exact ih (fun j2 hm hr => hall j2 (List.mem_cons_of_mem j hm) hr) acc

/-- C10: if any single RSA-typed key of a 200 JWKS response has a
modulus or exponent that fails base64url decoding, the whole refresh
aborts with an error and the validator state — cached key map and
last-fetch timestamp — is exactly what it was, with no key from the
response installed; whereas if every RSA-typed key converts, the
refresh succeeds no matter how many non-RSA keys are present (they are
skipped, not fatal). -/
theorem bad_rsa_key_aborts_refresh (st : ValidatorState) (now : Nat)
    (ks : List JWK) :
    ((∃ bad ∈ ks, bad.kty = "RSA" ∧ ∃ ce, jwkToRSAPublicKey bad = .error ce) →
      ∃ e, refreshKeysRun st (.response 200 (.jwks ks)) now = (st, some e)) ∧
    ((∀ j ∈ ks, j.kty = "RSA" → ∃ k, jwkToRSAPublicKey j = .ok k) →
      ∃ m, refreshKeysRun st (.response 200 (.jwks ks)) now = (⟨m, now⟩, none)) := by
  constructor
  · rintro ⟨bad, hmem, hk, ce, hbad⟩
    obtain ⟨e, he⟩ := buildKeys_error_of_badkey bad hk ce hbad ks hmem []
    refine ⟨e, ?_⟩
    simp [refreshKeysRun, he]
  · intro hall
    obtain ⟨m, hm⟩ := buildKeys_ok_of_all_good ks hall []
    refine ⟨m, ?_⟩
    simp [refreshKeysRun, hm]

/-- Witness for C10: a response carrying a non-RSA key, a bad RSA key
and a good RSA key aborts without touching the cache, while the same
response without the bad key succeeds. -/
theorem bad_rsa_key_aborts_refresh_witness :
    ((refreshKeysRun stA (.response 200 (.jwks [jwkEC, jwkBad, jwkA])) 200).2).isSome
      = true ∧
    (refreshKeysRun stA (.response 200 (.jwks [jwkEC, jwkA])) 200).2 = none := by
  constructor
  · obtain ⟨e, he⟩ := (bad_rsa_key_aborts_refresh stA 200 [jwkEC, jwkBad, jwkA]).1
      ⟨jwkBad, List.mem_cons_of_mem jwkEC (List.mem_cons_self jwkBad [jwkA]),
        rfl, .badModulus, rfl⟩
    rw [he]
    rfl
  · have hall : ∀ j ∈ [jwkEC, jwkA], j.kty = "RSA" →
        ∃ k, jwkToRSAPublicKey j = .ok k := by
      intro j hj hr
      rcases List.mem_cons.mp hj with rfl | hj2
      · exact absurd hr (by decide)
      · rcases List.mem_cons.mp hj2 with rfl | hj3
        · exact ⟨keyA, rfl⟩
        · cases hj3
    obtain ⟨m, hm⟩ := (bad_rsa_key_aborts_refresh stA 200 [jwkEC, jwkA]).2 hall
    rw [hm]
